import Mathlib

set_option maxHeartbeats 1200000
set_option maxRecDepth 4000

/-!
A shallow embedding of `gen_dtrace_helper.py` (class `TypeDG`): the DWARF
type-graph indexer (`TypeDG.__init__`'s `walk`), the declarator synthesizer
(`TypeDG.gen_decl`), the dependency-ordered emitter (`TypeDG.track`) and the
driver (`TypeDG.explain`).

Modelling conventions, fixed once and used throughout:

* A pyelftools `DIE` becomes the structure `DIE` below.  Each DWARF attribute
  the program reads becomes an `Option` field (`none` = attribute absent).
  A pyelftools attribute value is a non-empty namedtuple, so in Python
  `if attr:` on a fetched attribute object tests *presence*, and is always
  true once the object is in hand; `attrTruthy` records this fact.
* Python exceptions become the inductive `PyErr`.  `ParseError` is the
  program's own exception class; `TypeError`, `KeyError`, `AttributeError`
  and `NameError` are host exceptions the code can raise; `recursionError`
  models exhaustion of the host interpreter's call stack
  (`sys.setrecursionlimit`), which the embedding renders as a `fuel`
  parameter decremented at every recursive Python call level.
* The shared mutable dict `shown` holds two disjoint kinds of keys
  (DIE objects, mapped to the strings "declared"/"defined", and tag-name
  strings, mapped to DIE objects); it becomes the two-field structure
  `Shown`.  DIE identity is represented by the DIE's offset, which is unique
  per compilation unit.  Python dict mutations survive a raised-and-caught
  exception, so stateful code runs in the monad `PyM` whose results carry
  the state in the error case as well, and `print` appends to an output
  line list in the same state.
* Python `str` values that may be `None` are `Option String`; `+` on them is
  `pyAdd` (raising `TypeError` on `None`), f-string interpolation is `pyStr`
  (rendering `None` as "None"), and `str.join` is `pyJoin`.
-/

inductive PyErr where
  | parseError (msg : String)
  | typeError (msg : String)
  | keyError (key : String)
  | attributeError (msg : String)
  | nameError (msg : String)
  | recursionError
  deriving DecidableEq, Repr

/-- A debug-info entry (pyelftools `DIE`), restricted to the attributes the
program reads.  `offset` doubles as the entry's identity. -/
structure DIE where
  offset : Nat
  tag : String
  name : Option String
  typeRef : Option Nat
  declFile : Option Nat
  declLine : Option Nat
  byteSize : Option Nat
  declaration : Bool
  constValue : Option Int
  memberLoc : Option Nat
  count : Option Nat
  children : List DIE

/-- Fixture helper: an entry with a tag and everything else absent. -/
def bareDIE (off : Nat) (tag : String) : DIE :=
  ⟨off, tag, none, none, none, none, none, false, none, none, none, []⟩

/-- Fixture helper: a named entry. -/
def namedDIE (off : Nat) (tag : String) (nm : String) : DIE :=
  ⟨off, tag, some nm, none, none, none, none, false, none, none, none, []⟩

/-- Fixture helper: an entry with a `DW_AT_type` reference. -/
def refDIE (off : Nat) (tag : String) (ref : Nat) : DIE :=
  ⟨off, tag, none, some ref, none, none, none, false, none, none, none, []⟩

/-- First-match association lookup (Python dict access on the maps built
below, which keep keys unique). -/
def lookupD {α β : Type} [DecidableEq α] : List (α × β) → α → Option β
  | [], _ => none
  | (k, v) :: rest, k' => if k' = k then some v else lookupD rest k'

/-- Python `d[k] = v`: replace in place, or append a fresh key. -/
def dictInsert {α β : Type} [DecidableEq α] : List (α × β) → α → β → List (α × β)
  | [], k, v => [(k, v)]
  | (k', v') :: rest, k, v =>
      if k' = k then (k, v) :: rest else (k', v') :: dictInsert rest k v

/-- `TypeDG.TAGS_for_types` (a dict whose values may be `None`). -/
def TAGS_for_types : List (String × Option String) :=
  [("DW_TAG_array_type", none),
   ("DW_TAG_enumeration_type", some "enum"),
   ("DW_TAG_structure_type", some "struct"),
   ("DW_TAG_class_type", some "/*<class>*/struct"),
   ("DW_TAG_typedef", some "typedef"),
   ("DW_TAG_union_type", some "union"),
   ("DW_TAG_subprogram", none)]

/-- `TypeDG.TAGS_for_qualifiers`. -/
def TAGS_for_qualifiers : List (String × String) :=
  [("DW_TAG_const_type", "const"),
   ("DW_TAG_volatile_type", "volatile"),
   ("DW_TAG_restrict_type", "restrict"),
   ("DW_TAG_atomic_type", "_Atomic")]

/-- `TAGS_for_types.get(t, None)`: collapses "key absent" and "value None". -/
def typesGet (t : String) : Option String :=
  match lookupD TAGS_for_types t with
  | some v => v
  | none => none

/-- `TypeDG.LANGUAGES`: DW_LANG_C = 2, DW_LANG_C89 = 1, DW_LANG_C99 = 0xc,
DW_LANG_C11 = 0x1d. -/
def LANGUAGES : List Nat := [2, 1, 12, 29]

/-- A character accepted by `TypeDG.badchars`' complemented class
`[^A-Za-z0-9_ ]`. -/
def allowedChar (c : Char) : Bool :=
  ('A' ≤ c && c ≤ 'Z') || ('a' ≤ c && c ≤ 'z') || ('0' ≤ c && c ≤ '9') ||
    c = '_' || c = ' '

/-- `TypeDG.is_valid_name`.  `badchars = re.compile(".*[^A-Za-z0-9_ ]")` with
`re.match` succeeds exactly when the string contains a character outside the
class: scanning to the first offending character, every earlier character is
in the class (hence not a newline) and is consumed by `.*`.  So validity is
"every character allowed". -/
def is_valid_name (s : String) : Bool := s.data.all allowedChar

/-- Python `f"{n:x}"` (lowercase hexadecimal, no prefix). -/
def hexStr (n : Nat) : String := String.mk (Nat.toDigits 16 n)

/-- f-string rendering of a `str`-or-`None` value. -/
def pyStr : Option String → String
  | some s => s
  | none => "None"

/-- Python truthiness of a `str`-or-`None` value (`None` and `""` falsy). -/
def optStrTruthy : Option String → Bool
  | some s => s != ""
  | none => false

/-- Python `name if name else ""`. -/
def pyOrEmpty (o : Option String) : String :=
  if optStrTruthy o then o.getD "" else ""

/-- Python `+` on two `str`-or-`None` values: `TypeError` when either operand
is `None`. -/
def pyAdd : Option String → Option String → Except PyErr String
  | some a, some b => .ok (a ++ b)
  | _, _ => .error (.typeError "unsupported operand type(s) for +")

/-- All-or-nothing extraction of a list of `str`-or-`None` values. -/
def seqStrs : List (Option String) → Option (List String)
  | [] => some []
  | some s :: rest =>
      match seqStrs rest with
      | some ss => some (s :: ss)
      | none => none
  | none :: _ => none

/-- Python `sep.join(xs)`: `TypeError` when any element is `None`. -/
def pyJoin (sep : String) (xs : List (Option String)) : Except PyErr String :=
  match seqStrs xs with
  | some ss => .ok (String.intercalate sep ss)
  | none => .error (.typeError "sequence item: expected str instance, NoneType found")

/-- The per-unit index built by `TypeDG.__init__`. -/
structure TypeDG where
  cu_offset : Nat
  filedesc : List (Int × String)
  offset_to_die : List (Nat × DIE)
  named_types : List (String × List DIE)

/-- `TypeDG._get_type_die`. -/
def get_type_die (dg : TypeDG) (die : DIE) : Option DIE :=
  match die.typeRef with
  | some v => lookupD dg.offset_to_die v
  | none => none

/-- `TypeDG.src_location`.  `if loc_file:` / `if loc_line:` test a fetched
attribute object, which is a non-empty namedtuple and hence truthy exactly
when the attribute is present. -/
def src_location (filedesc : List (Int × String)) (die : DIE) : String :=
  let srcfile :=
    match die.declFile with
    | some v =>
        let fileno : Int := (v : Int) - 1
        match lookupD filedesc fileno with
        | some nm => nm
        | none => "_nowhere" ++ toString fileno ++ "_"
    | none => "_nowhere_"
  let srcline :=
    match die.declLine with
    | some v => ":" ++ toString (v : Nat)
    | none => ""
  srcfile ++ srcline

/-- `TypeDG._get_stem`. -/
def get_stem (die : DIE) : Except PyErr String :=
  match lookupD TAGS_for_types die.tag with
  | some (some stem) => .ok stem
  | _ => .error (.parseError ("no stem is known for " ++ die.tag))

/-- `TypeDG._get_die_name` (`cu_offset` is the `self.cu_offset` the gensym
path reads). -/
def get_die_name (cu_offset : Nat) (die : DIE) (gensym : Bool) :
    Except PyErr (Option String) :=
  match die.name with
  | some name =>
      if is_valid_name name then .ok (some name)
      else .error (.parseError ("invalid C identifier \x27" ++ name ++ "\x27"))
  | none =>
      if gensym then
        match get_stem die with
        | .ok stem =>
            .ok (some ("anon_" ++ stem ++ "_" ++ hexStr cu_offset ++ "_" ++
              hexStr die.offset))
        | .error e => .error e
      else .ok none

/-- The `shown` state: entry states keyed by DIE offset, plus the tag-name
keys (`shown[tag] = die`, stored as the die's offset). -/
inductive DieState where
  | declared
  | defined
  deriving DecidableEq, Repr

structure Shown where
  dies : List (Nat × DieState)
  tags : List (String × Nat)
  deriving DecidableEq, Repr

/-- The formal-parameter collection loop of `gen_decl`'s subroutine branch,
abstracted over the recursive call `g` (which is `gen_decl` one Python stack
frame deeper). -/
def genParamsAux (dg : TypeDG) (g : Option DIE → Except PyErr (Option String)) :
    List DIE → Except PyErr (List (Option String))
  | [] => .ok []
  | c :: rest =>
      if c.tag = "DW_TAG_formal_parameter" then do
        let d ← g (get_type_die dg c)
        let ds ← genParamsAux dg g rest
        .ok (d :: ds)
      else genParamsAux dg g rest

/-- The subrange-count scan of `gen_decl`'s array branch: starts at `"[]"`,
and every subrange child carrying `DW_AT_count` overwrites it, so the last
one wins. -/
def arrayCountText (cs : List DIE) : String :=
  cs.foldl
    (fun acc c =>
      if c.tag = "DW_TAG_subrange_type" then
        match c.count with
        | some v => "[" ++ toString v ++ "]"
        | none => acc
      else acc)
    "[]"

/-- `TypeDG.gen_decl`.  Pure (never reads or writes `shown`, which it takes
only because the Python signature does).  `fuel` models the host call stack:
every recursive Python call runs one frame deeper. -/
def gen_decl (fuel : Nat) (dg : TypeDG) (odie : Option DIE) (shown : Shown)
    (name : Option String) : Except PyErr (Option String) :=
  match fuel with
  | 0 => .error .recursionError
  | fuel + 1 =>
    match odie with
    | none =>
        match name with
        | none => .ok (some "void")
        | some n => .ok (some ("void " ++ n))
    | some die =>
      if die.tag = "DW_TAG_base_type" then
        if optStrTruthy name then do
          let bn ← get_die_name dg.cu_offset die false
          let s1 ← pyAdd bn (some " ")
          let s2 ← pyAdd (some s1) name
          .ok (some s2)
        else get_die_name dg.cu_offset die false
      else if die.tag = "DW_TAG_pointer_type" then
        gen_decl fuel dg (get_type_die dg die) shown (some ("*" ++ pyOrEmpty name))
      else if die.tag = "DW_TAG_reference_type" then
        gen_decl fuel dg (get_type_die dg die) shown
          (some ("/*<&>*/" ++ pyOrEmpty name))
      else if die.tag = "DW_TAG_rvalue_reference_type" then
        gen_decl fuel dg (get_type_die dg die) shown
          (some ("/*<&&>*/" ++ pyOrEmpty name))
      else if die.tag = "DW_TAG_subroutine_type" then do
        let fparams ← genParamsAux dg
          (fun od => gen_decl fuel dg od shown none) die.children
        let fparams ←
          if fparams.isEmpty then do
            let v ← gen_decl fuel dg none shown none
            Except.ok [v]
          else Except.ok fparams
        let ret ← gen_decl fuel dg (get_type_die dg die) shown none
        let s1 ← pyAdd ret (some " (")
        let s2 ← pyAdd (some s1) name
        let s3 ← pyAdd (some s2) (some ")(")
        let j ← pyJoin ", " fparams
        .ok (some (s3 ++ j ++ ")"))
      else if die.tag = "DW_TAG_array_type" then do
        let cnt := arrayCountText die.children
        let elemd ← gen_decl fuel dg (get_type_die dg die) shown none
        let s1 ← pyAdd elemd (some " ")
        let s2 ← pyAdd (some s1) name
        .ok (some (s2 ++ cnt))
      else if optStrTruthy (lookupD TAGS_for_qualifiers die.tag) then do
        let pfx :=
          if die.tag = "DW_TAG_restrict_type" then ""
          else (lookupD TAGS_for_qualifiers die.tag).getD "" ++ " "
        let r ← gen_decl fuel dg (get_type_die dg die) shown name
        let s1 ← pyAdd (some pfx) r
        .ok (some s1)
      else if optStrTruthy (typesGet die.tag) then do
        let pfx ←
          if die.tag = "DW_TAG_typedef" then Except.ok ""
          else do
            let stem ← get_stem die
            Except.ok (stem ++ " ")
        let nm ← get_die_name dg.cu_offset die true
        let s1 ← pyAdd (some pfx) nm
        let tail := if optStrTruthy name then " " ++ pyOrEmpty name else ""
        .ok (some (s1 ++ tail))
      else .error (.parseError ("cannot generate decl. for " ++ die.tag))

/-- The state visible to `track`/`explain`: the shared `shown` dict plus the
lines printed so far to standard output. -/
structure St where
  shown : Shown
  out : List String
  deriving DecidableEq, Repr

/-- Result of running a stateful Python computation: on an uncaught
exception the mutations made so far survive, so the error case carries the
state too. -/
inductive PyResult (α : Type) where
  | ok (a : α) (s : St)
  | err (e : PyErr) (s : St)
  deriving DecidableEq, Repr

def PyM (α : Type) : Type := St → PyResult α

namespace PyM

def pureR {α : Type} (a : α) : PyM α := fun s => .ok a s

def bindR {α β : Type} (x : PyM α) (f : α → PyM β) : PyM β := fun s =>
  match x s with
  | .ok a s' => f a s'
  | .err e s' => .err e s'

def throwE {α : Type} (e : PyErr) : PyM α := fun s => .err e s

/-- Run a pure (`Except`) Python expression in the stateful monad. -/
def liftE {α : Type} (x : Except PyErr α) : PyM α := fun s =>
  match x with
  | .ok a => .ok a s
  | .error e => .err e s

/-- One `print(...)` call: appends one line to standard output. -/
def emit (line : String) : PyM Unit := fun s =>
  .ok () { s with out := s.out ++ [line] }

def getShown : PyM Shown := fun s => .ok s.shown s

/-- `shown[die] = state`. -/
def setDie (off : Nat) (v : DieState) : PyM Unit := fun s =>
  .ok () { s with shown := { s.shown with dies := dictInsert s.shown.dies off v } }

/-- `shown[tag] = die`. -/
def setTag (t : String) (off : Nat) : PyM Unit := fun s =>
  .ok () { s with shown := { s.shown with tags := dictInsert s.shown.tags t off } }

/-- `try: ... except ParseError as e: handler(str(e))` — only `ParseError`
is caught; the handler starts from the state at the raise point. -/
def catchParse {α : Type} (x : PyM α) (h : String → PyM α) : PyM α := fun s =>
  match x s with
  | .err (.parseError m) s' => h m s'
  | r => r

/-- A bare `except:` clause (catches every exception). -/
def catchAll {α : Type} (x : PyM α) (h : PyErr → PyM α) : PyM α := fun s =>
  match x s with
  | .err e s' => h e s'
  | r => r

end PyM

instance : Monad PyM where
  pure := PyM.pureR
  bind := PyM.bindR

/-- The state an execution result ends in. -/
def PyResult.state {α : Type} : PyResult α → St
  | .ok _ s => s
  | .err _ s => s

/-- `print(line) for line in members`. -/
def emitLines : List String → PyM Unit
  | [] => pure ()
  | l :: rest => do
      PyM.emit l
      emitLines rest

/-- A pyelftools attribute object: a namedtuple carrying (among others) a
`value` field. -/
structure AttrValue where
  value : Int

/-- Python truthiness of an attribute object: a non-empty namedtuple is
always truthy, whatever `value` it carries. -/
def attrTruthy (_ : AttrValue) : Bool := true

/-- The enumerator loop of `track`'s enumeration branch
(`ctval = child.attributes["DW_AT_const_value"]` raises `KeyError` when the
attribute is absent; `if ctval:` then tests the attribute object, which is
always truthy, so the bare-name `else` arm is unreachable). -/
def enumMembers (cu_offset : Nat) : List DIE → Except PyErr (List String)
  | [] => .ok []
  | c :: rest =>
      if c.tag = "DW_TAG_enumerator" then
        match c.constValue with
        | none => .error (.keyError "DW_AT_const_value")
        | some v =>
            let ctval : AttrValue := ⟨v⟩
            if attrTruthy ctval then do
              let nm ← get_die_name cu_offset c false
              let rest' ← enumMembers cu_offset rest
              .ok (("\t" ++ pyStr nm ++ " = " ++ toString ctval.value) :: rest')
            else do
              let nm ← get_die_name cu_offset c false
              let rest' ← enumMembers cu_offset rest
              .ok (("\t" ++ pyStr nm) :: rest')
      else enumMembers cu_offset rest

/-- The formal-parameter loop of `track`'s subprogram/subroutine branch,
abstracted over the recursive call `tr` = `self.track(·, shown, depth, ·)`
one Python stack frame deeper. -/
def trackParamsAux (dg : TypeDG) (tr : Option DIE → Bool → PyM Unit) :
    List DIE → PyM Unit
  | [] => pure ()
  | c :: rest =>
      if c.tag = "DW_TAG_formal_parameter" then do
        PyM.catchParse (tr (get_type_die dg c) false)
          (fun m => PyM.throwE (.parseError ("formal-parameter -> " ++ m)))
        trackParamsAux dg tr rest
      else trackParamsAux dg tr rest

/-- The `try` block of the member loop: `mname` starts as `"??"`, is
replaced by the member's given name, then the member's type is tracked; a
`ParseError` from either step is re-raised with a message that reads
`mtype.tag` — an `AttributeError` when the member has no type (`mtype` is
`None`). -/
def memberFail {α : Type} (mtype : Option DIE) (mname : Option String)
    (m : String) : PyM α :=
  match mtype with
  | none => PyM.throwE (.attributeError "NoneType object has no attribute tag")
  | some mt =>
      PyM.throwE (.parseError ("failed to track a member " ++ mt.tag ++ " " ++
        pyStr mname ++ " " ++ m))

def memberNameTrack (dg : TypeDG) (tr : Option DIE → Bool → PyM Unit)
    (c : DIE) (mtype : Option DIE) : PyM (Option String) :=
  match get_die_name dg.cu_offset c false with
  | .error (.parseError m) => memberFail mtype (some "??") m
  | .error e => PyM.throwE e
  | .ok mname =>
      PyM.catchParse
        (do
          tr mtype false
          pure mname)
        (fun m => memberFail mtype mname m)

/-- The member loop of `track`'s aggregate branch: members lacking
`DW_AT_data_member_location` are skipped; each remaining member's type is
tracked and its declarator line collected (printed only after the whole
loop succeeds). -/
def trackMembersAux (dg : TypeDG) (tr : Option DIE → Bool → PyM Unit)
    (gd : Option DIE → Shown → Option String → Except PyErr (Option String)) :
    List DIE → PyM (List String)
  | [] => pure []
  | c :: rest =>
      if c.tag = "DW_TAG_member" then
        let mtype := get_type_die dg c
        match c.memberLoc with
        | none => trackMembersAux dg tr gd rest
        | some mloc => do
            let mname ← memberNameTrack dg tr c mtype
            let sh ← PyM.getShown
            let d ← PyM.liftE (gd mtype sh mname)
            let line := "\t" ++ pyStr d ++ ";\t/* +0x" ++ hexStr mloc ++ " */"
            let rest' ← trackMembersAux dg tr gd rest
            pure (line :: rest')
      else trackMembersAux dg tr gd rest

/-- What follows `track`'s tag dispatch: most branches fall through to the
final state write at the bottom of `track` (with `decl_only` telling it
which state to record); a Python `return` inside a branch skips that
write. -/
inductive TrackFlow where
  | earlyReturn
  | fallThrough (decl_only : Bool)
  deriving DecidableEq, Repr

/-- The tag dispatch of `TypeDG.track` (its `if die.tag == ...` chain), with
`tr` = `self.track(·, shown, depth, ·)` and `gd` = `self.gen_decl` running
one Python stack frame deeper. -/
def trackDispatch (dg : TypeDG) (tr : Option DIE → Bool → PyM Unit)
    (gd : Option DIE → Shown → Option String → Except PyErr (Option String))
    (die : DIE) (maybe_incomplete : Bool) : PyM TrackFlow :=
  if die.tag = "DW_TAG_base_type" then
    pure (.fallThrough false)
  else if die.tag = "DW_TAG_subprogram" ∨ die.tag = "DW_TAG_subroutine_type" then do
    tr (get_type_die dg die) false
    trackParamsAux dg tr die.children
    pure (.fallThrough false)
  else if die.tag = "DW_TAG_pointer_type" then do
    PyM.catchParse (tr (get_type_die dg die) true)
      (fun m => PyM.throwE (.parseError ("pointer -> " ++ m)))
    pure (.fallThrough false)
  else if (lookupD TAGS_for_qualifiers die.tag).isSome then do
    tr (get_type_die dg die) false
    pure (.fallThrough false)
  else if die.tag = "DW_TAG_typedef" then do
    let dep := get_type_die dg die
    PyM.catchParse (tr dep false)
      (fun m => PyM.throwE (.parseError ("typedef -> " ++ m)))
    PyM.emit ("\n/* @ " ++ src_location dg.filedesc die ++ " */")
    let nm ← PyM.liftE (get_die_name dg.cu_offset die false)
    let sh ← PyM.getShown
    let d ← PyM.liftE (gd dep sh nm)
    let s1 ← PyM.liftE (pyAdd (some "typedef ") d)
    let line ← PyM.liftE (pyAdd (some s1) (some ";"))
    PyM.emit line
    pure (.fallThrough false)
  else if die.tag = "DW_TAG_structure_type" ∨ die.tag = "DW_TAG_class_type" ∨
      die.tag = "DW_TAG_union_type" then
    if maybe_incomplete then do
      let sh ← PyM.getShown
      let d ← PyM.liftE (gd (some die) sh none)
      let line ← PyM.liftE (pyAdd d (some ";"))
      PyM.emit line
      pure (.fallThrough true)
    else if die.declaration then
      pure .earlyReturn
    else do
      let tagO ← PyM.liftE (get_die_name dg.cu_offset die true)
      let tag := pyStr tagO
      let sh ← PyM.getShown
      if (lookupD sh.tags tag).isSome then
        pure .earlyReturn
      else do
        PyM.setTag tag die.offset
        PyM.setDie die.offset .defined
        match die.byteSize with
        | none => PyM.throwE (.keyError "DW_AT_byte_size")
        | some size => do
            let members ← trackMembersAux dg tr gd die.children
            PyM.emit ("\n/* @ " ++ src_location dg.filedesc die ++ " */")
            let sh2 ← PyM.getShown
            let hd ← PyM.liftE (gd (some die) sh2 none)
            let line ← PyM.liftE
              (pyAdd hd (some ("\t/* size=0x" ++ hexStr size ++ " */")))
            PyM.emit line
            if !members.isEmpty then
              emitLines members
            else if size > 0 then
              PyM.emit ("\tchar dummy[0x" ++ hexStr size ++ "];")
            else pure ()
            PyM.emit "\x7d;"
            pure (.fallThrough false)
  else if die.tag = "DW_TAG_array_type" then do
    tr (get_type_die dg die) false
    pure (.fallThrough false)
  else if die.tag = "DW_TAG_enumeration_type" then do
    let tagO ← PyM.liftE (get_die_name dg.cu_offset die true)
    let tag := pyStr tagO
    let sh ← PyM.getShown
    if (lookupD sh.tags tag).isSome then
      pure .earlyReturn
    else do
      PyM.setTag tag die.offset
      let members ← PyM.liftE (enumMembers dg.cu_offset die.children)
      let sh2 ← PyM.getShown
      let hd ← PyM.liftE (gd (some die) sh2 none)
      let line ← PyM.liftE (pyAdd hd (some " \x7b"))
      PyM.emit line
      PyM.emit (String.intercalate ",\n" members)
      PyM.emit "\x7d;"
      pure (.fallThrough false)
  else if die.tag = "DW_TAG_reference_type" then do
    let dep := get_type_die dg die
    PyM.catchAll (tr dep false)
      (fun _ => PyM.throwE (.nameError "name \x27e\x27 is not defined"))
    pure (.fallThrough false)
  else if die.tag = "DW_TAG_rvalue_reference_type" then do
    let dep := get_type_die dg die
    PyM.catchAll (tr dep false)
      (fun _ => PyM.throwE (.nameError "name \x27e\x27 is not defined"))
    pure (.fallThrough false)
  else
    PyM.throwE (.parseError ("incmpatible DIE: " ++ die.tag))

/-- `TypeDG.track`.  `fuel` models the host interpreter's remaining call
stack (`sys.setrecursionlimit`); it is distinct from the `depth` parameter
the source threads but never consults. -/
def track (fuel : Nat) (dg : TypeDG) (odie : Option DIE) (depth : Nat)
    (maybe_incomplete : Bool) : PyM Unit :=
  match fuel with
  | 0 => PyM.throwE .recursionError
  | fuel + 1 =>
    let depth := depth + 1
    match odie with
    | none => pure ()
    | some die => do
      let sh ← PyM.getShown
      let is_known := lookupD sh.dies die.offset
      if is_known = some DieState.defined then pure ()
      else if is_known = some DieState.declared ∧ maybe_incomplete = true then pure ()
      else do
        let flow ← trackDispatch dg (fun od mi => track fuel dg od depth mi)
          (gen_decl fuel dg) die maybe_incomplete
        match flow with
        | .earlyReturn => pure ()
        | .fallThrough true => do
            let sh2 ← PyM.getShown
            if lookupD sh2.dies die.offset = some DieState.defined then pure ()
            else PyM.setDie die.offset .declared
        | .fallThrough false => PyM.setDie die.offset .defined

/-- The inner loop of `TypeDG.explain` for one name's candidate set: each
candidate is tracked from depth 0; a `ParseError` is caught and reported as
a diagnostic comment naming the entry's kind (tag), the index name, and the
source location, and the loop continues. -/
def explainDies (fuel : Nat) (dg : TypeDG) (name : String) :
    List DIE → PyM Unit
  | [] => pure ()
  | die :: rest => do
      PyM.catchParse (track fuel dg (some die) 0 false)
        (fun m => PyM.emit ("/* skipped " ++ die.tag ++ " \x27" ++ name ++
          "\x27 at " ++ src_location dg.filedesc die ++ ": " ++ m ++ " */"))
      explainDies fuel dg name rest

/-- The outer loop of `TypeDG.explain` over the name index, in insertion
order (no `filter` argument: the default path yields every candidate). -/
def explainAll (fuel : Nat) (dg : TypeDG) :
    List (String × List DIE) → PyM Unit
  | [] => pure ()
  | (name, dies) :: rest => do
      explainDies fuel dg name dies
      explainAll fuel dg rest

/-- `TypeDG.explain` with the default (absent) filter, on a caller-supplied
`shown` state. -/
def explain (fuel : Nat) (dg : TypeDG) : PyM Unit :=
  explainAll fuel dg dg.named_types

/-- Accumulator of `TypeDG.__init__`'s `walk` generator: the offset pairs
yielded so far, the `named_types` index under construction (Python
`names.setdefault(name, set()).add(die)`; the set is modelled as an
insertion-ordered list deduplicated by DIE identity), and the lines printed
so far. -/
structure WalkAcc where
  pairs : List (Nat × DIE)
  names : List (String × List DIE)
  out : List String

/-- `set.add(die)`: identity-based (offset) deduplication. -/
def setAdd (ds : List DIE) (die : DIE) : List DIE :=
  if ds.any (fun d => d.offset = die.offset) then ds else ds ++ [die]

/-- `names.setdefault(given_name, set()).add(die)`. -/
def namesAdd (names : List (String × List DIE)) (nm : String) (die : DIE) :
    List (String × List DIE) :=
  match names with
  | [] => [(nm, [die])]
  | (k, ds) :: rest =>
      if k = nm then (k, setAdd ds die) :: rest
      else (k, ds) :: namesAdd rest nm die

/-- The sibling loop of `walk` (`for child in die.iter_children(): yield
from walk(child, ...)`), abstracted over the recursive call `w` =
`walk(·, names, depth+1)` one Python stack frame deeper. -/
def walkChildrenAux (w : DIE → WalkAcc → Except PyErr WalkAcc) :
    List DIE → WalkAcc → Except PyErr WalkAcc
  | [], acc => .ok acc
  | c :: rest, acc => do
      let acc2 ← w c acc
      walkChildrenAux w rest acc2

/-- One step of `walk(die, names)`: for entries whose tag is in
`TAGS_for_types`, the name check runs first; a `ParseError` prints a skip
comment and returns from the generator, so the entry is not yielded and its
children are not visited.  Otherwise the entry is yielded (keyed by
`offset - cu_offset`) and its children walked.  A non-`ParseError`
exception would escape `__init__`; the embedding propagates it.  `fuel`
models the host interpreter's call stack, exactly as in `track`: `walk` is
ordinary recursive Python and runs under the same
`sys.setrecursionlimit`. -/
def walkDIE (fuel : Nat) (cu_offset : Nat) (filedesc : List (Int × String))
    (die : DIE) (acc : WalkAcc) : Except PyErr WalkAcc :=
  match fuel with
  | 0 => .error .recursionError
  | fuel + 1 =>
    if (lookupD TAGS_for_types die.tag).isSome then
      match get_die_name cu_offset die false with
      | .error (.parseError m) =>
          .ok { acc with out := acc.out ++
            ["/* skipped " ++ die.tag ++ " at " ++ src_location filedesc die ++
              ": " ++ m ++ " */"] }
      | .error e => .error e
      | .ok given_name =>
          let acc :=
            if optStrTruthy given_name then
              { acc with names := namesAdd acc.names (given_name.getD "") die }
            else acc
          let acc := { acc with pairs := acc.pairs ++ [(die.offset - cu_offset, die)] }
          walkChildrenAux (fun c a => walkDIE fuel cu_offset filedesc c a)
            die.children acc
    else
      let acc := { acc with pairs := acc.pairs ++ [(die.offset - cu_offset, die)] }
      walkChildrenAux (fun c a => walkDIE fuel cu_offset filedesc c a)
        die.children acc

/-- What `TypeDG.__init__` requires from its collaborators (§6 of the spec):
the unit's base offset, the top entry's `DW_AT_language` value, the top
entry itself, and the line program's file-entry names. -/
structure CUInfo where
  cu_offset : Nat
  language : Nat
  top : DIE
  file_entries : List String

/-- `dict(enumerate(...))` for the file table. -/
def enumFiles (fs : List String) : List (Int × String) :=
  (fs.enum.map fun p => ((p.1 : Int), p.2))

/-- `dict(walk(top, named_types))`: later duplicate offsets overwrite
earlier ones. -/
def dictOfPairs (ps : List (Nat × DIE)) : List (Nat × DIE) :=
  ps.foldl (fun d (kv : Nat × DIE) => dictInsert d kv.1 kv.2) []

/-- `TypeDG.__init__`: units outside the supported C-family language set get
an empty index (the Python code leaves the other attributes unset; nothing
reads them through `explain`, and the embedding uses empty maps).  The
returned list is what the constructor printed (skip comments). -/
def mkTypeDG (fuel : Nat) (cu : CUInfo) : Except PyErr (TypeDG × List String) :=
  if ¬ (cu.language ∈ LANGUAGES) then
    .ok ({ cu_offset := 0, filedesc := [], offset_to_die := [], named_types := [] }, [])
  else
    let filedesc := enumFiles cu.file_entries
    match walkDIE fuel cu.cu_offset filedesc cu.top ⟨[], [], []⟩ with
    | .ok acc =>
        .ok ({ cu_offset := cu.cu_offset, filedesc := filedesc,
               offset_to_die := dictOfPairs acc.pairs,
               named_types := acc.names }, acc.out)
    | .error e => .error e

/-- Rank of an entry state: absent < declared < defined. -/
def stateRank : Option DieState → Nat
  | none => 0
  | some .declared => 1
  | some .defined => 2

/-- The monotonicity order on `shown` states: every entry state may only
move upward, and existing tag-name bindings are never removed or changed. -/
def ShownLe (a b : Shown) : Prop :=
  (∀ k, stateRank (lookupD a.dies k) ≤ stateRank (lookupD b.dies k)) ∧
  (∀ t v, lookupD a.tags t = some v → lookupD b.tags t = some v)

/-- A stateful computation whose every run only upgrades the `shown`
state. -/
def Mono {α : Type} (x : PyM α) : Prop :=
  ∀ s, ShownLe s.shown ((x s).state).shown

/-- Pointwise version of `Mono`: one run from one state only upgrades the
`shown` state. -/
def MonoAt {α : Type} (x : PyM α) (s : St) : Prop :=
  ShownLe s.shown ((x s).state).shown

/-- The run ended in an uncaught `ParseError`. -/
def resultParse {α : Type} : PyResult α → Prop
  | .err (.parseError _) _ => True
  | _ => False

/-- A malformed but representable entry: a `const` qualifier whose
`DW_AT_type` reference points at itself. -/
def cyclicConst : DIE := refDIE 1 "DW_TAG_const_type" 1

def cyclicDG : TypeDG := ⟨0, [], [(1, cyclicConst)], [("c", [cyclicConst])]⟩

/-- The spec's reading of the subrange scan, written from the claim's words:
the count used is the one of the *last* subrange child carrying an explicit
count, if any. -/
def lastSubrangeCount : List DIE → Option Nat
  | [] => none
  | c :: rest =>
      match lastSubrangeCount rest with
      | some v => some v
      | none => if c.tag = "DW_TAG_subrange_type" then c.count else none


/-! ## Concrete fixtures used by the claims -/

/-- The empty driver state (fresh `shown`, nothing printed yet). -/
def emptySt : St := ⟨⟨[], []⟩, []⟩

/-- C3 fixture (parametric in byte size and member offset):
`struct node { struct node *next; };`. -/
def nodeMember (loc : Nat) : DIE :=
  ⟨3, "DW_TAG_member", some "next", some 2, none, none, none, false, none,
    some loc, none, []⟩

def nodeStruct (sz loc : Nat) : DIE :=
  ⟨1, "DW_TAG_structure_type", some "node", none, none, none, some sz, false,
    none, none, none, [nodeMember loc]⟩

def nodePtr : DIE := refDIE 2 "DW_TAG_pointer_type" 1

def nodeDG (sz loc : Nat) : TypeDG :=
  ⟨0, [], [(1, nodeStruct sz loc), (2, nodePtr)], [("node", [nodeStruct sz loc])]⟩

/-- C4 fixture: a pointer to a struct that is never defined along this
path. -/
def fwdStruct : DIE := namedDIE 1 "DW_TAG_structure_type" "incomplete1"

def fwdPtr : DIE := refDIE 2 "DW_TAG_pointer_type" 1

def fwdDG : TypeDG :=
  ⟨0, [], [(1, fwdStruct), (2, fwdPtr)], [("incomplete1", [fwdStruct])]⟩

/-- C6/C7/C10 fixture: `int`, `int *`, `int [4]`, a zero-parameter
void-returning subroutine type, a pointer to it, and `const int`. -/
def intDie : DIE := namedDIE 1 "DW_TAG_base_type" "int"

def intPtr : DIE := refDIE 2 "DW_TAG_pointer_type" 1

def subr4 : DIE :=
  ⟨9, "DW_TAG_subrange_type", none, none, none, none, none, false, none, none,
    some 4, []⟩

def intArr : DIE :=
  ⟨3, "DW_TAG_array_type", none, some 1, none, none, none, false, none, none,
    none, [subr4]⟩

def voidFn : DIE := bareDIE 4 "DW_TAG_subroutine_type"

def fnPtr : DIE := refDIE 5 "DW_TAG_pointer_type" 4

def constInt : DIE := refDIE 6 "DW_TAG_const_type" 1

def dgC6 : TypeDG :=
  ⟨0, [],
   [(1, intDie), (2, intPtr), (3, intArr), (4, voidFn), (5, fnPtr), (6, constInt)],
   []⟩

/-- C8 fixture: an enumeration whose single enumerator carries the constant
value 0, and one whose enumerator has no constant value at all. -/
def enrZero : DIE :=
  ⟨2, "DW_TAG_enumerator", some "A", none, none, none, none, false, some 0,
    none, none, []⟩

def colorEnum : DIE :=
  ⟨1, "DW_TAG_enumeration_type", some "color", none, none, none, none, false,
    none, none, none, [enrZero]⟩

def enrBare : DIE :=
  ⟨5, "DW_TAG_enumerator", some "B", none, none, none, none, false, none,
    none, none, []⟩

def hueEnum : DIE :=
  ⟨4, "DW_TAG_enumeration_type", some "hue", none, none, none, none, false,
    none, none, none, [enrBare]⟩

def dgEnum : TypeDG :=
  ⟨0, [], [(1, colorEnum), (4, hueEnum)],
   [("color", [colorEnum]), ("hue", [hueEnum])]⟩

/-- C5 fixture: a unit whose top entry has one well-named typedef child and
one structure child with an invalid name, the latter with a child of its
own. -/
def badInner : DIE := namedDIE 7 "DW_TAG_base_type" "int"

def badStruct : DIE :=
  ⟨5, "DW_TAG_structure_type", some "bad!", none, none, none, none, false,
    none, none, none, [badInner]⟩

def goodTypedef : DIE := namedDIE 3 "DW_TAG_typedef" "ok_t"

def cuTop : DIE :=
  ⟨0, "DW_TAG_compile_unit", none, none, none, none, none, false, none, none,
    none, [goodTypedef, badStruct]⟩

def cuEx : CUInfo := ⟨0, 2, cuTop, ["main.c"]⟩

/-- The index `mkTypeDG` actually builds for `cuEx`: the invalid-named
structure and its child are missing. -/
def cuExDG : TypeDG :=
  ⟨0, [(0, "main.c")], [(0, cuTop), (3, goodTypedef)], [("ok_t", [goodTypedef])]⟩

/-- C1 witness fixture: a named entry of a kind `track` has no rule for. -/
def varDie : DIE := bareDIE 1 "DW_TAG_variable"

def varDG : TypeDG := ⟨0, [], [(1, varDie)], [("v", [varDie])]⟩

/-- C2 witness fixture: a second struct instance whose tag name is already
recorded in the shared state under a different entry (offset 9). -/
def twinStruct : DIE := namedDIE 3 "DW_TAG_structure_type" "twin"

def twinDG : TypeDG := ⟨0, [], [(3, twinStruct)], [("twin", [twinStruct])]⟩

def twinSt : St := ⟨⟨[], [("twin", 9)]⟩, []⟩

/-! ## Verification infrastructure -/

theorem PyResult.state_ok {α : Type} (a : α) (s : St) :
    (PyResult.ok a s).state = s := rfl

theorem PyResult.state_err {α : Type} (e : PyErr) (s : St) :
    (PyResult.err e s : PyResult α).state = s := rfl

theorem shownLe_refl (a : Shown) : ShownLe a a :=
  ⟨fun _ => le_refl _, fun _ _ h => h⟩

theorem shownLe_trans {a b c : Shown} (h1 : ShownLe a b) (h2 : ShownLe b c) :
    ShownLe a c :=
  ⟨fun k => le_trans (h1.1 k) (h2.1 k), fun t v h => h2.2 t v (h1.2 t v h)⟩

theorem lookupD_dictInsert {α β : Type} [DecidableEq α]
    (d : List (α × β)) (k : α) (v : β) (k' : α) :
    lookupD (dictInsert d k v) k' = if k' = k then some v else lookupD d k' := by
  induction d with
  | nil => simp [dictInsert, lookupD]
  | cons hd tl ih =>
      obtain ⟨k0, v0⟩ := hd
      by_cases h0 : k0 = k
      · subst h0
        by_cases h1 : k' = k0 <;> simp [dictInsert, lookupD, h1]
      · by_cases h1 : k' = k0 <;> simp [dictInsert, lookupD, h0, h1, ih]

theorem stateRank_le_two (o : Option DieState) : stateRank o ≤ 2 := by
  cases o with
  | none => simp [stateRank]
  | some v => cases v <;> simp [stateRank]

theorem mono_pure {α : Type} (a : α) : Mono (pure a : PyM α) :=
  fun s => shownLe_refl s.shown

theorem mono_throwE {α : Type} (e : PyErr) : Mono (PyM.throwE e : PyM α) :=
  fun s => shownLe_refl s.shown

theorem mono_liftE {α : Type} (x : Except PyErr α) : Mono (PyM.liftE x) := by
  intro s
  cases x <;> exact shownLe_refl s.shown

theorem mono_emit (l : String) : Mono (PyM.emit l) :=
  fun s => shownLe_refl s.shown

theorem mono_getShown : Mono PyM.getShown :=
  fun s => shownLe_refl s.shown

theorem mono_bind {α β : Type} {x : PyM α} {f : α → PyM β}
    (hx : Mono x) (hf : ∀ a, Mono (f a)) : Mono (x >>= f) := by
  intro s
  have hx' := hx s
  show ShownLe s.shown ((PyM.bindR x f s).state).shown
  unfold PyM.bindR
  cases h : x s with
  | ok a s' =>
      rw [h] at hx'
      exact shownLe_trans hx' (hf a s')
  | err e s' =>
      rw [h] at hx'
      simpa using hx'

theorem mono_catchParse {α : Type} {x : PyM α} {h : String → PyM α}
    (hx : Mono x) (hh : ∀ m, Mono (h m)) : Mono (PyM.catchParse x h) := by
  intro s
  have hx' := hx s
  unfold PyM.catchParse
  cases hr : x s with
  | ok a s' => rw [hr] at hx'; exact hx'
  | err e s' =>
      rw [hr] at hx'
      cases e with
      | parseError m => exact shownLe_trans hx' (hh m s')
      | typeError m => exact hx'
      | keyError m => exact hx'
      | attributeError m => exact hx'
      | nameError m => exact hx'
      | recursionError => exact hx'

theorem mono_catchAll {α : Type} {x : PyM α} {h : PyErr → PyM α}
    (hx : Mono x) (hh : ∀ e, Mono (h e)) : Mono (PyM.catchAll x h) := by
  intro s
  have hx' := hx s
  unfold PyM.catchAll
  cases hr : x s with
  | ok a s' => rw [hr] at hx'; exact hx'
  | err e s' => rw [hr] at hx'; exact shownLe_trans hx' (hh e s')

/-- Writing `defined` into an entry's state never moves any state down. -/
theorem mono_setDie_defined (off : Nat) : Mono (PyM.setDie off .defined) := by
  intro s
  refine ⟨fun k => ?_, fun t v hv => hv⟩
  show stateRank (lookupD s.shown.dies k) ≤
    stateRank (lookupD (dictInsert s.shown.dies off .defined) k)
  rw [lookupD_dictInsert]
  by_cases hk : k = off
  · subst hk
    simp only [if_pos rfl]
    exact stateRank_le_two _
  · simp [hk]

theorem mono_emitLines (ls : List String) : Mono (emitLines ls) := by
  induction ls with
  | nil => exact mono_pure ()
  | cons l rest ih =>
      show Mono (PyM.emit l >>= fun _ => emitLines rest)
      exact mono_bind (mono_emit l) (fun _ => ih)

theorem monoAt_of_mono {α : Type} {x : PyM α} (h : Mono x) (s : St) :
    MonoAt x s := h s

theorem monoAt_bind {α β : Type} {x : PyM α} {f : α → PyM β} {s : St}
    (hx : MonoAt x s)
    (hf : ∀ a s', x s = .ok a s' → MonoAt (f a) s') :
    MonoAt (x >>= f) s := by
  unfold MonoAt at *
  show ShownLe s.shown ((PyM.bindR x f s).state).shown
  unfold PyM.bindR
  cases h : x s with
  | ok a s' =>
      rw [h] at hx
      exact shownLe_trans hx (hf a s' h)
  | err e s' =>
      rw [h] at hx
      simpa using hx

theorem monoAt_getShown_bind {β : Type} {f : Shown → PyM β} {s : St}
    (hf : MonoAt (f s.shown) s) : MonoAt (PyM.getShown >>= f) s := hf

/-- Recording a fresh tag-name binding preserves every existing binding and
every entry state. -/
theorem monoAt_setTag_fresh {t : String} {off : Nat} {s : St}
    (h : lookupD s.shown.tags t = none) : MonoAt (PyM.setTag t off) s := by
  refine ⟨fun k => le_refl _, fun t' v hv => ?_⟩
  show lookupD (dictInsert s.shown.tags t off) t' = some v
  rw [lookupD_dictInsert]
  by_cases ht : t' = t
  · rw [ht] at hv; rw [hv] at h; exact absurd h (by simp)
  · simp [ht, hv]

/-- Writing `declared` into an entry that is not `defined` only upgrades. -/
theorem monoAt_setDie_declared {off : Nat} {s : St}
    (h : ¬ lookupD s.shown.dies off = some DieState.defined) :
    MonoAt (PyM.setDie off .declared) s := by
  refine ⟨fun k => ?_, fun t v hv => hv⟩
  show stateRank (lookupD s.shown.dies k) ≤
    stateRank (lookupD (dictInsert s.shown.dies off .declared) k)
  rw [lookupD_dictInsert]
  by_cases hk : k = off
  · subst hk
    cases ho : lookupD s.shown.dies k with
    | none => simp [stateRank]
    | some v =>
        cases v with
        | declared => simp [stateRank]
        | defined => exact absurd ho h
  · simp [hk]

theorem mono_trackParamsAux (dg : TypeDG) (tr : Option DIE → Bool → PyM Unit)
    (htr : ∀ od m2, Mono (tr od m2)) (cs : List DIE) :
    Mono (trackParamsAux dg tr cs) := by
  induction cs with
  | nil => exact mono_pure ()
  | cons c rest ih =>
      by_cases hc : c.tag = "DW_TAG_formal_parameter"
      · show Mono (trackParamsAux dg tr (c :: rest))
        simp only [trackParamsAux, if_pos hc]
        exact mono_bind
          (mono_catchParse (htr _ _) (fun m => mono_throwE _))
          (fun _ => ih)
      · simp only [trackParamsAux, if_neg hc]
        exact ih

theorem mono_memberFail {α : Type} (mtype : Option DIE) (mname : Option String)
    (m : String) : Mono (memberFail mtype mname m : PyM α) := by
  cases mtype <;> exact mono_throwE _

theorem mono_memberNameTrack (dg : TypeDG) (tr : Option DIE → Bool → PyM Unit)
    (htr : ∀ od m2, Mono (tr od m2)) (c : DIE) (mtype : Option DIE) :
    Mono (memberNameTrack dg tr c mtype) := by
  unfold memberNameTrack
  cases h : get_die_name dg.cu_offset c false with
  | ok mname =>
      exact mono_catchParse (mono_bind (htr _ _) (fun _ => mono_pure _))
        (fun m => mono_memberFail _ _ _)
  | error e =>
      cases e with
      | parseError m => exact mono_memberFail _ _ _
      | typeError m => exact mono_throwE _
      | keyError m => exact mono_throwE _
      | attributeError m => exact mono_throwE _
      | nameError m => exact mono_throwE _
      | recursionError => exact mono_throwE _

theorem mono_trackMembersAux (dg : TypeDG) (tr : Option DIE → Bool → PyM Unit)
    (gd : Option DIE → Shown → Option String → Except PyErr (Option String))
    (htr : ∀ od m2, Mono (tr od m2)) (cs : List DIE) :
    Mono (trackMembersAux dg tr gd cs) := by
  induction cs with
  | nil => exact mono_pure []
  | cons c rest ih =>
      by_cases hc : c.tag = "DW_TAG_member"
      · simp only [trackMembersAux, if_pos hc]
        cases hm : c.memberLoc with
        | none => exact ih
        | some mloc =>
            exact mono_bind (mono_memberNameTrack dg tr htr c _)
              (fun mname => mono_bind mono_getShown
                (fun sh => mono_bind (mono_liftE _)
                  (fun d => mono_bind ih (fun rest' => mono_pure _))))
      · simp only [trackMembersAux, if_neg hc]
        exact ih

theorem mono_trackDispatch (dg : TypeDG) (tr : Option DIE → Bool → PyM Unit)
    (gd : Option DIE → Shown → Option String → Except PyErr (Option String))
    (die : DIE) (mi : Bool)
    (htr : ∀ od m2, Mono (tr od m2)) :
    Mono (trackDispatch dg tr gd die mi) := by
  unfold trackDispatch
  by_cases h1 : die.tag = "DW_TAG_base_type"
  · rw [if_pos h1]; exact mono_pure _
  rw [if_neg h1]
  by_cases h2 : die.tag = "DW_TAG_subprogram" ∨ die.tag = "DW_TAG_subroutine_type"
  · rw [if_pos h2]
    exact mono_bind (htr _ _) (fun _ =>
      mono_bind (mono_trackParamsAux dg tr htr die.children) (fun _ => mono_pure _))
  rw [if_neg h2]
  by_cases h3 : die.tag = "DW_TAG_pointer_type"
  · rw [if_pos h3]
    exact mono_bind (mono_catchParse (htr _ _) (fun _ => mono_throwE _))
      (fun _ => mono_pure _)
  rw [if_neg h3]
  by_cases h4 : (lookupD TAGS_for_qualifiers die.tag).isSome = true
  · rw [if_pos h4]
    exact mono_bind (htr _ _) (fun _ => mono_pure _)
  rw [if_neg h4]
  by_cases h5 : die.tag = "DW_TAG_typedef"
  · rw [if_pos h5]
    exact mono_bind (mono_catchParse (htr _ _) (fun _ => mono_throwE _))
      (fun _ => mono_bind (mono_emit _) (fun _ => mono_bind (mono_liftE _)
        (fun nm => mono_bind mono_getShown (fun sh => mono_bind (mono_liftE _)
          (fun d => mono_bind (mono_liftE _) (fun s1 => mono_bind (mono_liftE _)
            (fun line => mono_bind (mono_emit _) (fun _ => mono_pure _))))))))
  rw [if_neg h5]
  by_cases h6 : die.tag = "DW_TAG_structure_type" ∨ die.tag = "DW_TAG_class_type" ∨
      die.tag = "DW_TAG_union_type"
  · rw [if_pos h6]
    by_cases hmi : mi = true
    · rw [if_pos hmi]
      exact mono_bind mono_getShown (fun sh => mono_bind (mono_liftE _)
        (fun d => mono_bind (mono_liftE _) (fun line =>
          mono_bind (mono_emit _) (fun _ => mono_pure _))))
    rw [if_neg hmi]
    by_cases hdecl : die.declaration = true
    · rw [if_pos hdecl]; exact mono_pure _
    rw [if_neg hdecl]
    refine mono_bind (mono_liftE _) (fun tagO => ?_)
    intro s
    apply monoAt_getShown_bind
    by_cases hT : (lookupD s.shown.tags (pyStr tagO)).isSome
    · simp only [if_pos hT]
      exact shownLe_refl _
    · simp only [if_neg hT]
      refine monoAt_bind (monoAt_setTag_fresh ?_) (fun a s1 hset => ?_)
      · exact Option.not_isSome_iff_eq_none.mp hT
      · apply monoAt_of_mono
        refine mono_bind (mono_setDie_defined _) (fun _ => ?_)
        cases die.byteSize with
        | none => exact mono_throwE _
        | some size =>
            refine mono_bind (mono_trackMembersAux dg tr gd htr die.children)
              (fun members => ?_)
            refine mono_bind (mono_emit _) (fun _ => ?_)
            refine mono_bind mono_getShown (fun sh2 => ?_)
            refine mono_bind (mono_liftE _) (fun hd => ?_)
            refine mono_bind (mono_liftE _) (fun line => ?_)
            refine mono_bind (mono_emit _) (fun _ => ?_)
            by_cases hm : (!members.isEmpty) = true
            · rw [if_pos hm]
              exact mono_bind (mono_emitLines members) (fun _ =>
                mono_bind (mono_emit _) (fun _ => mono_pure _))
            · rw [if_neg hm]
              by_cases hs : size > 0
              · rw [if_pos hs]
                exact mono_bind (mono_emit _) (fun _ =>
                  mono_bind (mono_emit _) (fun _ => mono_pure _))
              · rw [if_neg hs]
                exact mono_bind (mono_pure ()) (fun _ =>
                  mono_bind (mono_emit _) (fun _ => mono_pure _))
  rw [if_neg h6]
  by_cases h7 : die.tag = "DW_TAG_array_type"
  · rw [if_pos h7]
    exact mono_bind (htr _ _) (fun _ => mono_pure _)
  rw [if_neg h7]
  by_cases h8 : die.tag = "DW_TAG_enumeration_type"
  · rw [if_pos h8]
    refine mono_bind (mono_liftE _) (fun tagO => ?_)
    intro s
    apply monoAt_getShown_bind
    by_cases hT : (lookupD s.shown.tags (pyStr tagO)).isSome
    · simp only [if_pos hT]
      exact shownLe_refl _
    · simp only [if_neg hT]
      refine monoAt_bind (monoAt_setTag_fresh ?_) (fun a s1 hset => ?_)
      · exact Option.not_isSome_iff_eq_none.mp hT
      · apply monoAt_of_mono
        refine mono_bind (mono_liftE _) (fun members => ?_)
        refine mono_bind mono_getShown (fun sh2 => ?_)
        refine mono_bind (mono_liftE _) (fun hd => ?_)
        refine mono_bind (mono_liftE _) (fun line => ?_)
        exact mono_bind (mono_emit _) (fun _ => mono_bind (mono_emit _)
          (fun _ => mono_bind (mono_emit _) (fun _ => mono_pure _)))
  rw [if_neg h8]
  by_cases h9 : die.tag = "DW_TAG_reference_type"
  · rw [if_pos h9]
    exact mono_bind (mono_catchAll (htr _ _) (fun _ => mono_throwE _))
      (fun _ => mono_pure _)
  rw [if_neg h9]
  by_cases h10 : die.tag = "DW_TAG_rvalue_reference_type"
  · rw [if_pos h10]
    exact mono_bind (mono_catchAll (htr _ _) (fun _ => mono_throwE _))
      (fun _ => mono_pure _)
  rw [if_neg h10]
  exact mono_throwE _

/-- Every `track` run, from every state, only upgrades the shared `shown`
state: entry states move only upward through
absent → declared → defined, and tag-name bindings are never removed or
changed — even when `track` raises. -/
theorem track_mono (fuel : Nat) :
    ∀ (dg : TypeDG) (od : Option DIE) (depth : Nat) (mi : Bool),
      Mono (track fuel dg od depth mi) := by
  induction fuel with
  | zero => intro dg od depth mi; exact mono_throwE _
  | succ n ih =>
      intro dg od depth mi
      cases od with
      | none => exact mono_pure ()
      | some die =>
          show Mono (PyM.getShown >>= fun sh =>
            if lookupD sh.dies die.offset = some DieState.defined then pure ()
            else if lookupD sh.dies die.offset = some DieState.declared ∧ mi = true then pure ()
            else
              (trackDispatch dg (fun od2 mi2 => track n dg od2 (depth + 1) mi2)
                  (gen_decl n dg) die mi) >>= fun flow =>
                match flow with
                | .earlyReturn => pure ()
                | .fallThrough true => do
                    let sh2 ← PyM.getShown
                    if lookupD sh2.dies die.offset = some DieState.defined then pure ()
                    else PyM.setDie die.offset .declared
                | .fallThrough false => PyM.setDie die.offset .defined)
          intro s
          apply monoAt_getShown_bind
          by_cases hdef : lookupD s.shown.dies die.offset = some DieState.defined
          · simp only [if_pos hdef]
            exact shownLe_refl _
          simp only [if_neg hdef]
          by_cases hdecl : lookupD s.shown.dies die.offset = some DieState.declared ∧ mi = true
          · simp only [if_pos hdecl]
            exact shownLe_refl _
          simp only [if_neg hdecl]
          refine monoAt_bind
            (monoAt_of_mono
              (mono_trackDispatch dg _ (gen_decl n dg) die mi (fun od2 mi2 => ih dg od2 (depth + 1) mi2)) s)
            (fun flow s2 hrun => ?_)
          cases flow with
          | earlyReturn => exact shownLe_refl _
          | fallThrough declOnly =>
              cases declOnly with
              | true =>
                  apply monoAt_getShown_bind
                  by_cases h2 : lookupD s2.shown.dies die.offset = some DieState.defined
                  · simp only [if_pos h2]
                    exact shownLe_refl _
                  · simp only [if_neg h2]
                    exact monoAt_setDie_declared h2
              | false => exact monoAt_of_mono (mono_setDie_defined die.offset) s2

/-- The `depth` parameter `track` threads is dead: it is incremented and
passed on but never compared to any bound, so the result of `track` is
completely independent of it. -/
theorem track_depth_irrel (fuel : Nat) :
    ∀ (dg : TypeDG) (od : Option DIE) (d d' : Nat) (mi : Bool),
      track fuel dg od d mi = track fuel dg od d' mi := by
  induction fuel with
  | zero => intros; rfl
  | succ n ih =>
      intro dg od d d' mi
      cases od with
      | none => rfl
      | some die =>
          have h : (fun od2 mi2 => track n dg od2 (d + 1) mi2) =
              (fun od2 mi2 => track n dg od2 (d' + 1) mi2) := by
            funext od2 mi2
            exact ih dg od2 (d + 1) (d' + 1) mi2
          show (PyM.getShown >>= fun sh =>
            if lookupD sh.dies die.offset = some DieState.defined then pure ()
            else if lookupD sh.dies die.offset = some DieState.declared ∧ mi = true then pure ()
            else
              (trackDispatch dg (fun od2 mi2 => track n dg od2 (d + 1) mi2)
                  (gen_decl n dg) die mi) >>= fun flow =>
                match flow with
                | .earlyReturn => pure ()
                | .fallThrough true => do
                    let sh2 ← PyM.getShown
                    if lookupD sh2.dies die.offset = some DieState.defined then pure ()
                    else PyM.setDie die.offset .declared
                | .fallThrough false => PyM.setDie die.offset .defined) =
            (PyM.getShown >>= fun sh =>
            if lookupD sh.dies die.offset = some DieState.defined then pure ()
            else if lookupD sh.dies die.offset = some DieState.declared ∧ mi = true then pure ()
            else
              (trackDispatch dg (fun od2 mi2 => track n dg od2 (d' + 1) mi2)
                  (gen_decl n dg) die mi) >>= fun flow =>
                match flow with
                | .earlyReturn => pure ()
                | .fallThrough true => do
                    let sh2 ← PyM.getShown
                    if lookupD sh2.dies die.offset = some DieState.defined then pure ()
                    else PyM.setDie die.offset .declared
                | .fallThrough false => PyM.setDie die.offset .defined)
          rw [h]

theorem catchParse_no_parse {α : Type} (x : PyM α) (h : String → PyM α)
    (hh : ∀ m s, ¬ resultParse (h m s)) (s : St) :
    ¬ resultParse (PyM.catchParse x h s) := by
  unfold PyM.catchParse
  cases hr : x s with
  | ok a s' => simp [resultParse]
  | err e s' =>
      cases e with
      | parseError m => exact hh m s'
      | typeError m => simp [resultParse]
      | keyError m => simp [resultParse]
      | attributeError m => simp [resultParse]
      | nameError m => simp [resultParse]
      | recursionError => simp [resultParse]

/-- No `ParseError` ever escapes the candidate loop of `explain`: each one
is caught at the per-root boundary and turned into a diagnostic comment. -/
theorem explainDies_no_parse (fuel : Nat) (dg : TypeDG) (name : String)
    (dies : List DIE) : ∀ s, ¬ resultParse (explainDies fuel dg name dies s) := by
  induction dies with
  | nil => intro s; simp [explainDies, resultParse, Pure.pure, PyM.pureR]
  | cons die rest ih =>
      intro s
      show ¬ resultParse ((PyM.catchParse (track fuel dg (some die) 0 false)
        (fun m => PyM.emit ("/* skipped " ++ die.tag ++ " \x27" ++ name ++
          "\x27 at " ++ src_location dg.filedesc die ++ ": " ++ m ++ " */")) >>=
        fun _ => explainDies fuel dg name rest) s)
      show ¬ resultParse (PyM.bindR _ _ s)
      unfold PyM.bindR
      cases hr : PyM.catchParse (track fuel dg (some die) 0 false) _ s with
      | ok a s' => exact ih s'
      | err e s' =>
          have := catchParse_no_parse (track fuel dg (some die) 0 false)
            (fun m => PyM.emit ("/* skipped " ++ die.tag ++ " \x27" ++ name ++
              "\x27 at " ++ src_location dg.filedesc die ++ ": " ++ m ++ " */"))
            (fun m s2 => by simp [PyM.emit, resultParse]) s
          rw [hr] at this
          exact this

/-- No `ParseError` ever escapes the name-index loop of `explain`. -/
theorem explainAll_no_parse (fuel : Nat) (dg : TypeDG)
    (nts : List (String × List DIE)) :
    ∀ s, ¬ resultParse (explainAll fuel dg nts s) := by
  induction nts with
  | nil => intro s; simp [explainAll, resultParse, Pure.pure, PyM.pureR]
  | cons nd rest ih =>
      obtain ⟨name, dies⟩ := nd
      intro s
      show ¬ resultParse ((explainDies fuel dg name dies >>=
        fun _ => explainAll fuel dg rest) s)
      show ¬ resultParse (PyM.bindR _ _ s)
      unfold PyM.bindR
      cases hr : explainDies fuel dg name dies s with
      | ok a s' => exact ih s'
      | err e s' =>
          have := explainDies_no_parse fuel dg name dies s
          rw [hr] at this
          exact this

/-- On a self-referential qualifier chain, `track` exhausts the host call
stack whatever the stack limit is: for every fuel value the run ends in the
host `RecursionError`, never in a `ParseError`, and the `depth` argument
plays no part. -/
theorem track_cyclic_recursion (fuel : Nat) :
    ∀ (st : St) (d : Nat), lookupD st.shown.dies 1 = none →
      track fuel cyclicDG (some cyclicConst) d false st =
        .err .recursionError st := by
  induction fuel with
  | zero => intro st d h; rfl
  | succ n ih =>
      intro st d h
      have hrec := ih st (d + 1) h
      simp only [track, Bind.bind, PyM.bindR, PyM.getShown, trackDispatch,
        PyM.catchParse, PyM.throwE, h, cyclicConst, refDIE, cyclicDG,
        lookupD, get_type_die, TAGS_for_qualifiers]
      simp only [cyclicConst, refDIE, cyclicDG] at hrec
      simp
      simp [PyM.bindR, hrec]

theorem arrayCountText_foldl (cs : List DIE) : ∀ (acc : String),
    cs.foldl
      (fun acc c =>
        if c.tag = "DW_TAG_subrange_type" then
          match c.count with
          | some v => "[" ++ toString v ++ "]"
          | none => acc
        else acc) acc =
    (match lastSubrangeCount cs with
      | none => acc
      | some v => "[" ++ toString v ++ "]") := by
  induction cs with
  | nil => intro acc; rfl
  | cons c rest ih =>
      intro acc
      rw [List.foldl_cons, ih]
      by_cases hc : c.tag = "DW_TAG_subrange_type"
      · cases hcount : c.count with
        | none =>
            cases hl : lastSubrangeCount rest <;>
              simp [lastSubrangeCount, hl, hc, hcount]
        | some v =>
            cases hl : lastSubrangeCount rest <;>
              simp [lastSubrangeCount, hl, hc, hcount]
      · cases hl : lastSubrangeCount rest <;>
          simp [lastSubrangeCount, hl, hc]

/-- `arrayCountText` renders the last explicit subrange count, or `"[]"`. -/
theorem arrayCountText_eq_last (cs : List DIE) :
    arrayCountText cs =
      (match lastSubrangeCount cs with
        | none => "[]"
        | some v => "[" ++ toString v ++ "]") :=
  arrayCountText_foldl cs "[]"

theorem exceptBind_ok {α β : Type} {x : Except PyErr α} {f : α → Except PyErr β}
    {b : β} (h : (x >>= f) = .ok b) : ∃ a, x = .ok a ∧ f a = .ok b := by
  cases x with
  | ok a => exact ⟨a, rfl, h⟩
  | error e => simp [Bind.bind, Except.bind] at h

/-- With no identifier supplied, `gen_decl` on a subroutine-type or
array-type entry can never return text: the declarator concatenates the
identifier with `+`, which is a host `TypeError` on `None`, and every other
exit from those branches is itself an error. -/
theorem gen_decl_noident_fails (fuel : Nat) (dg : TypeDG) (die : DIE) (sh : Shown)
    (h : die.tag = "DW_TAG_subroutine_type" ∨ die.tag = "DW_TAG_array_type") :
    ∀ r, gen_decl fuel dg (some die) sh none ≠ .ok r := by
  intro r hc
  cases fuel with
  | zero => simp [gen_decl] at hc
  | succ n =>
      rcases h with h | h
      · simp only [gen_decl, h] at hc
        simp at hc
        obtain ⟨ps, hps, hc⟩ := exceptBind_ok hc
        by_cases hemp : ps = []
        · rw [if_pos hemp] at hc
          obtain ⟨v, hv, hc⟩ := exceptBind_ok hc
          obtain ⟨y, hy, hc⟩ := exceptBind_ok hc
          obtain ⟨ret, hret, hc⟩ := exceptBind_ok hc
          obtain ⟨s1, hs1, hc⟩ := exceptBind_ok hc
          obtain ⟨s2, hs2, hc⟩ := exceptBind_ok hc
          simp [pyAdd] at hs2
        · rw [if_neg hemp] at hc
          obtain ⟨y, hy, hc⟩ := exceptBind_ok hc
          obtain ⟨ret, hret, hc⟩ := exceptBind_ok hc
          obtain ⟨s1, hs1, hc⟩ := exceptBind_ok hc
          obtain ⟨s2, hs2, hc⟩ := exceptBind_ok hc
          simp [pyAdd] at hs2
      · simp only [gen_decl, h] at hc
        simp at hc
        obtain ⟨elemd, helem, hc⟩ := exceptBind_ok hc
        obtain ⟨s1, hs1, hc⟩ := exceptBind_ok hc
        obtain ⟨s2, hs2, hc⟩ := exceptBind_ok hc
        simp [pyAdd] at hs2

/-- Re-visiting an aggregate whose tag name was already recorded in the
shared state — by this or any other entry instance — is a complete no-op:
no output, no state change (name-level dedup wins over instance
identity). -/
theorem track_known_tag_noop (fuel : Nat) (dg : TypeDG) (die : DIE) (depth : Nat)
    (st : St) (t : String) (v : Nat)
    (htag : die.tag = "DW_TAG_structure_type" ∨ die.tag = "DW_TAG_class_type" ∨
      die.tag = "DW_TAG_union_type")
    (hstate : lookupD st.shown.dies die.offset = none)
    (hdecl : die.declaration = false)
    (hname : get_die_name dg.cu_offset die true = .ok (some t))
    (hin : lookupD st.shown.tags t = some v) :
    track (fuel + 1) dg (some die) depth false st = .ok () st := by
  rcases htag with h | h | h <;>
    simp [track, trackDispatch, Bind.bind, PyM.bindR, PyM.getShown, PyM.liftE,
      Pure.pure, PyM.pureR, h, hstate, hdecl, hname, hin, pyStr,
      TAGS_for_qualifiers, lookupD]

theorem explainDies_skip_continue (fuel : Nat) (dg : TypeDG) (name : String)
    (die : DIE) (rest : List DIE) (st st' : St) (m : String)
    (h : track fuel dg (some die) 0 false st = .err (.parseError m) st') :
    explainDies fuel dg name (die :: rest) st =
      explainDies fuel dg name rest
        { st' with out := st'.out ++
          ["/* skipped " ++ die.tag ++ " \x27" ++ name ++ "\x27 at " ++
            src_location dg.filedesc die ++ ": " ++ m ++ " */"] } := by
  show (PyM.catchParse (track fuel dg (some die) 0 false)
      (fun m2 => PyM.emit ("/* skipped " ++ die.tag ++ " \x27" ++ name ++
        "\x27 at " ++ src_location dg.filedesc die ++ ": " ++ m2 ++ " */")) >>=
      fun _ => explainDies fuel dg name rest) st = _
  simp only [Bind.bind, PyM.bindR, PyM.catchParse, h, PyM.emit]

/-! ## Claims -/

/-- C1: a naming or structural failure (`ParseError`) raised while emitting
one root aborts only that root: `explain` catches it, prints a diagnostic
comment naming the entry's kind (tag), the index name and its source
location, and continues with the next candidate; no `ParseError` raised
inside `track` ever escapes the iteration over the name index.  (Host-level
errors such as `KeyError` are not of this kind and do propagate.) -/
theorem C1_driver_catches_and_continues :
    (∀ (fuel : Nat) (dg : TypeDG) (s : St), ¬ resultParse (explain fuel dg s)) ∧
    (∀ (fuel : Nat) (dg : TypeDG) (name : String) (die : DIE) (rest : List DIE)
        (st st' : St) (m : String),
      track fuel dg (some die) 0 false st = .err (.parseError m) st' →
      explainDies fuel dg name (die :: rest) st =
        explainDies fuel dg name rest
          { st' with out := st'.out ++
            ["/* skipped " ++ die.tag ++ " \x27" ++ name ++ "\x27 at " ++
              src_location dg.filedesc die ++ ": " ++ m ++ " */"] }) :=
  ⟨fun fuel dg s => explainAll_no_parse fuel dg dg.named_types s,
   fun fuel dg name die rest st st' m h =>
     explainDies_skip_continue fuel dg name die rest st st' m h⟩

theorem C1_witness :
    explainDies 5 varDG "v" [varDie] emptySt =
      explainDies 5 varDG "v" []
        { emptySt with out := emptySt.out ++
          ["/* skipped DW_TAG_variable \x27v\x27 at _nowhere_: incmpatible DIE: DW_TAG_variable */"] } :=
  C1_driver_catches_and_continues.2 5 varDG "v" varDie [] emptySt emptySt
    "incmpatible DIE: DW_TAG_variable" rfl

/-- C2: the emission state is monotonic under every `track` run sharing one
state map — every entry's state only moves absent → DECLARED → DEFINED
(never downgraded, even when `track` raises), tag-name bindings are never
removed or changed, and a later `track` of a different aggregate instance
carrying an already-recorded tag name is a complete no-op (no second full
definition is printed). -/
theorem C2_emission_state_monotonic_and_tag_dedup :
    (∀ (fuel : Nat) (dg : TypeDG) (od : Option DIE) (depth : Nat) (mi : Bool)
        (st : St),
      ShownLe st.shown ((track fuel dg od depth mi st).state).shown) ∧
    (∀ (fuel : Nat) (dg : TypeDG) (die : DIE) (depth : Nat) (st : St)
        (t : String) (v : Nat),
      (die.tag = "DW_TAG_structure_type" ∨ die.tag = "DW_TAG_class_type" ∨
        die.tag = "DW_TAG_union_type") →
      lookupD st.shown.dies die.offset = none →
      die.declaration = false →
      get_die_name dg.cu_offset die true = .ok (some t) →
      lookupD st.shown.tags t = some v →
      track (fuel + 1) dg (some die) depth false st = .ok () st) :=
  ⟨fun fuel dg od depth mi st => track_mono fuel dg od depth mi st,
   fun fuel dg die depth st t v h1 h2 h3 h4 h5 =>
     track_known_tag_noop fuel dg die depth st t v h1 h2 h3 h4 h5⟩

theorem C2_witness :
    track 5 twinDG (some twinStruct) 0 false twinSt = .ok () twinSt :=
  C2_emission_state_monotonic_and_tag_dedup.2 4 twinDG twinStruct 0 twinSt
    "twin" 9 (Or.inl rfl) rfl rfl rfl rfl

/-- C3: a struct with a pointer-typed member whose pointee is the struct
itself terminates: the tag name and the entry are marked DEFINED before the
members are tracked, so the recursive visit through the pointer
short-circuits at the already-DEFINED entry, and the member renders as a
pointer to the same tag (`struct node *next`).  Stated for every byte size
and member offset. -/
theorem C3_self_referential_struct_terminates (sz loc : Nat) :
    track 10 (nodeDG sz loc) (some (nodeStruct sz loc)) 0 false emptySt =
      .ok () ⟨⟨[(1, .defined), (2, .defined)], [("node", 1)]⟩,
        ["\n/* @ _nowhere_ */",
         "struct node" ++ ("\t/* size=0x" ++ hexStr sz ++ " */"),
         "\tstruct node *next;\t/* +0x" ++ hexStr loc ++ " */",
         "\x7d;"]⟩ := rfl

/-- C4: tracking a pointer whose pointee struct is neither DECLARED nor
DEFINED in the shared state prints exactly one forward declaration
(`struct incomplete1;`) and no full definition, and leaves the pointee in
state DECLARED — for every starting state, depth, and stack budget of at
least three frames. -/
theorem C4_pointer_to_undefined_struct_forward_declares (f d : Nat) (st : St)
    (h1 : lookupD st.shown.dies 1 = none)
    (h2 : lookupD st.shown.dies 2 = none) :
    track (f + 3) fwdDG (some fwdPtr) d false st =
      .ok () ⟨⟨dictInsert (dictInsert st.shown.dies 1 .declared) 2 .defined,
               st.shown.tags⟩,
              st.out ++ ["struct incomplete1;"]⟩ ∧
    lookupD (dictInsert (dictInsert st.shown.dies 1 .declared) 2 .defined) 1 =
      some .declared := by
  constructor
  · simp [track, trackDispatch, gen_decl, Bind.bind, PyM.bindR, PyM.getShown,
      PyM.liftE, PyM.catchParse, PyM.emit, PyM.setDie, Pure.pure, PyM.pureR,
      h1, h2, fwdStruct, fwdPtr, fwdDG, namedDIE, refDIE, lookupD, get_type_die,
      TAGS_for_qualifiers, TAGS_for_types, typesGet, get_die_name, get_stem,
      is_valid_name, allowedChar, pyAdd, pyStr, optStrTruthy, pyOrEmpty,
      Except.bind]
  · simp [lookupD_dictInsert]

theorem C4_witness :
    track 3 fwdDG (some fwdPtr) 0 false emptySt =
      .ok () ⟨⟨dictInsert (dictInsert emptySt.shown.dies 1 .declared) 2 .defined,
               emptySt.shown.tags⟩,
              emptySt.out ++ ["struct incomplete1;"]⟩ ∧
    lookupD (dictInsert (dictInsert emptySt.shown.dies 1 .declared) 2 .defined) 1 =
      some .declared :=
  C4_pointer_to_undefined_struct_forward_declares 0 0 emptySt rfl rfl

/-- C5 counterexample: the claim is false on the code.  In `cuEx`, the
structure entry named `bad!` fails name validation during indexing; the
`walk` generator then *returns*, so the entry is not recorded in the offset
map and its child (offset 7) is never traversed — contradicting "the entry
is still recorded in the offset map, its children are still traversed, and
for every entry of the unit ... the offset map contains it". -/
theorem C5_counterexample :
    mkTypeDG 100 cuEx = .ok (cuExDG,
      ["/* skipped DW_TAG_structure_type at _nowhere_: invalid C identifier \x27bad!\x27 */"]) ∧
    lookupD cuExDG.offset_to_die (badStruct.offset - cuEx.cu_offset) = none ∧
    lookupD cuExDG.offset_to_die (badInner.offset - cuEx.cu_offset) = none ∧
    badStruct ∈ cuEx.top.children ∧ badInner ∈ badStruct.children :=
  ⟨rfl, rfl, rfl, List.Mem.tail _ (List.Mem.head _), List.Mem.head _⟩

/-- C5 amended: during indexing, a name-validation failure on an entry skips
that entry *and its whole subtree*: the entry is not recorded in the offset
map and its children are not traversed (only the skip comment is printed).
Every other entry is recorded keyed by (offset − unit base offset) before
its children are walked — whether its kind is outside the named-type set or
its name check succeeded. -/
theorem C5_amended_naming_failure_skips_subtree :
    (∀ (fuel cu : Nat) (fd : List (Int × String)) (die : DIE) (acc : WalkAcc)
        (m : String),
      (lookupD TAGS_for_types die.tag).isSome = true →
      get_die_name cu die false = .error (.parseError m) →
      walkDIE (fuel + 1) cu fd die acc =
        .ok { acc with out := acc.out ++
          ["/* skipped " ++ die.tag ++ " at " ++ src_location fd die ++ ": " ++
            m ++ " */"] }) ∧
    (∀ (fuel cu : Nat) (fd : List (Int × String)) (die : DIE) (acc : WalkAcc),
      (lookupD TAGS_for_types die.tag).isSome = false →
      walkDIE (fuel + 1) cu fd die acc =
        walkChildrenAux (fun c a => walkDIE fuel cu fd c a) die.children
          { acc with pairs := acc.pairs ++ [(die.offset - cu, die)] }) ∧
    (∀ (fuel cu : Nat) (fd : List (Int × String)) (die : DIE) (acc : WalkAcc)
        (nm : Option String),
      (lookupD TAGS_for_types die.tag).isSome = true →
      get_die_name cu die false = .ok nm →
      walkDIE (fuel + 1) cu fd die acc =
        walkChildrenAux (fun c a => walkDIE fuel cu fd c a) die.children
          ⟨acc.pairs ++ [(die.offset - cu, die)],
           if optStrTruthy nm then namesAdd acc.names (nm.getD "") die
           else acc.names,
           acc.out⟩) := by
  refine ⟨?_, ?_, ?_⟩
  · intro fuel cu fd die acc m ht hn
    simp [walkDIE, ht, hn]
  · intro fuel cu fd die acc ht
    simp [walkDIE, ht]
  · intro fuel cu fd die acc nm ht hn
    by_cases h : optStrTruthy nm = true <;> simp [walkDIE, ht, hn, h]

theorem C5_witness :
    walkDIE 100 0 [(0, "main.c")] badStruct ⟨[], [], []⟩ =
      .ok ⟨[], [],
        ["/* skipped DW_TAG_structure_type at _nowhere_: invalid C identifier \x27bad!\x27 */"]⟩ :=
  C5_amended_naming_failure_skips_subtree.1 99 0 [(0, "main.c")] badStruct
    ⟨[], [], []⟩ "invalid C identifier \x27bad!\x27" rfl rfl

/-- C6: the four synthesis literals, exactly as claimed: pointer-to-int
named `x`, 4-element int array named `arr`, zero-argument void-returning
function pointer named `fp`, const-qualified int named `c`. -/
theorem C6_synthesis_literals :
    gen_decl 10 dgC6 (some intPtr) ⟨[], []⟩ (some "x") = .ok (some "int *x") ∧
    gen_decl 10 dgC6 (some intArr) ⟨[], []⟩ (some "arr") = .ok (some "int arr[4]") ∧
    gen_decl 10 dgC6 (some fnPtr) ⟨[], []⟩ (some "fp") = .ok (some "void (*fp)(void)") ∧
    gen_decl 10 dgC6 (some constInt) ⟨[], []⟩ (some "c") = .ok (some "const int c") :=
  ⟨rfl, rfl, rfl, rfl⟩

/-- C7: for every array entry whose element type renders successfully,
`gen_decl` renders the element declarator, the identifier, and then `"[]"`
when no subrange child carries an explicit count, else `"[count]"` where the
count is the one of the *last* subrange child carrying one
(`lastSubrangeCount`). -/
theorem C7_array_count_last_wins (fuel : Nat) (dg : TypeDG) (d : DIE)
    (s : Shown) (nm e : String)
    (htag : d.tag = "DW_TAG_array_type")
    (helem : gen_decl fuel dg (get_type_die dg d) s none = .ok (some e)) :
    gen_decl (fuel + 1) dg (some d) s (some nm) =
      .ok (some (e ++ " " ++ nm ++
        (match lastSubrangeCount d.children with
          | none => "[]"
          | some v => "[" ++ toString v ++ "]"))) := by
  cases hlast : lastSubrangeCount d.children <;>
    (have harr := arrayCountText_eq_last d.children;
     rw [hlast] at harr;
     simp [gen_decl, htag, helem, harr, hlast, Bind.bind, Except.bind, pyAdd])

theorem C7_witness :
    gen_decl 10 dgC6 (some intArr) ⟨[], []⟩ (some "arr") =
      .ok (some ("int" ++ " " ++ "arr" ++
        (match lastSubrangeCount intArr.children with
          | none => "[]"
          | some v => "[" ++ toString v ++ "]"))) :=
  C7_array_count_last_wins 9 dgC6 intArr ⟨[], []⟩ "arr" "int" rfl rfl

/-- C8 counterexample: the claim is false on the code.  The presence test
`if ctval:` is applied to the fetched attribute *object* — a non-empty
namedtuple, truthy regardless of its value — so an enumerator whose
constant value is 0 renders `A = 0` (not bare `A`), and an enumerator with
*no* constant value raises a host `KeyError`
(`child.attributes["DW_AT_const_value"]`) instead of printing a bare name
— with the already-made state writes surviving. -/
theorem C8_counterexample :
    track 10 dgEnum (some colorEnum) 0 false emptySt =
      .ok () ⟨⟨[(1, .defined)], [("color", 1)]⟩,
        ["enum color \x7b", "\tA = 0", "\x7d;"]⟩ ∧
    track 10 dgEnum (some hueEnum) 0 false emptySt =
      .err (.keyError "DW_AT_const_value") ⟨⟨[], [("hue", 4)]⟩, []⟩ :=
  ⟨rfl, rfl⟩

/-- C8 amended: every enumerator child whose constant value is present
prints as `name = value`, *including* a value of zero (the truthiness test
lands on the always-truthy attribute object); an enumerator without a
constant value raises a host `KeyError` (which `explain` does not catch),
never a bare `name`. -/
theorem C8_amended_zero_renders_and_missing_raises :
    (∀ (cu : Nat) (c : DIE) (rest : List DIE),
      c.tag = "DW_TAG_enumerator" → c.constValue = none →
      enumMembers cu (c :: rest) = .error (.keyError "DW_AT_const_value")) ∧
    (∀ (cu : Nat) (c : DIE) (rest : List DIE) (v : Int) (nm : Option String),
      c.tag = "DW_TAG_enumerator" → c.constValue = some v →
      get_die_name cu c false = .ok nm →
      enumMembers cu (c :: rest) =
        (enumMembers cu rest).map
          (fun ms => ("\t" ++ pyStr nm ++ " = " ++ toString v) :: ms)) := by
  constructor
  · intro cu c rest hk hv
    simp [enumMembers, hk, hv]
  · intro cu c rest v nm hk hv hnm
    cases h : enumMembers cu rest <;>
      simp [enumMembers, hk, hv, hnm, h, attrTruthy, Bind.bind, Except.bind,
        Except.map]

theorem C8_witness :
    enumMembers 0 [enrZero] =
      (enumMembers 0 ([] : List DIE)).map
        (fun ms => ("\t" ++ pyStr (some "A") ++ " = " ++ toString (0 : Int)) :: ms) :=
  C8_amended_zero_renders_and_missing_raises.2 0 enrZero [] 0 (some "A")
    rfl rfl rfl

/-- C9 counterexample: the claim is false on the code.  On a
self-referential qualifier chain the emitter does not fail with any
distinct "depth exceeded" `ParseError` at a checked bound: it exhausts the
host interpreter's call stack (here budgeted at 100 frames, the CLI's
`sys.setrecursionlimit(100)`), and the resulting host `RecursionError`
is not caught by the driver either. -/
theorem C9_counterexample :
    track 100 cyclicDG (some cyclicConst) 0 false emptySt =
      .err .recursionError emptySt ∧
    explain 100 cyclicDG emptySt = .err .recursionError emptySt :=
  ⟨rfl, rfl⟩

/-- C9 amended: the `depth` counter `track` threads is never consulted —
the result is identical for every `depth` argument — and recursion is
bounded only by the host call stack: on a cyclic chain, *every* stack
budget ends in the host `RecursionError` (never a distinct "depth
exceeded" `ParseError`). -/
theorem C9_amended_depth_never_checked :
    (∀ (fuel : Nat) (dg : TypeDG) (od : Option DIE) (d d' : Nat) (mi : Bool),
      track fuel dg od d mi = track fuel dg od d' mi) ∧
    (∀ (fuel : Nat) (st : St) (d : Nat),
      lookupD st.shown.dies 1 = none →
      track fuel cyclicDG (some cyclicConst) d false st =
        .err .recursionError st) :=
  ⟨track_depth_irrel, track_cyclic_recursion⟩

theorem C9_witness :
    track 7 cyclicDG (some cyclicConst) 5 false emptySt =
      .err .recursionError emptySt :=
  C9_amended_depth_never_checked.2 7 emptySt 5 rfl

/-- C10: called on a subroutine-type or array-type entry with no
identifier, `gen_decl` can never return text — the identifier is
concatenated with `+`, a host `TypeError` on `None` — and on the concrete
well-formed entries of `dgC6` the failure is precisely that `TypeError`,
not the modeled `ParseError`. -/
theorem C10_missing_identifier_is_host_type_error :
    (∀ (fuel : Nat) (dg : TypeDG) (die : DIE) (sh : Shown),
      (die.tag = "DW_TAG_subroutine_type" ∨ die.tag = "DW_TAG_array_type") →
      ∀ r, gen_decl fuel dg (some die) sh none ≠ .ok r) ∧
    gen_decl 10 dgC6 (some voidFn) ⟨[], []⟩ none =
      .error (.typeError "unsupported operand type(s) for +") ∧
    gen_decl 10 dgC6 (some intArr) ⟨[], []⟩ none =
      .error (.typeError "unsupported operand type(s) for +") :=
  ⟨gen_decl_noident_fails, rfl, rfl⟩

theorem C10_witness :
    gen_decl 10 dgC6 (some voidFn) ⟨[], []⟩ none ≠ .ok (some "void (*)(void)") :=
  C10_missing_identifier_is_host_type_error.1 10 dgC6 voidFn ⟨[], []⟩
    (Or.inl rfl) (some "void (*)(void)")
